import Mathlib

/-!
Verification of the Array-Steel-Hack scenario pipeline.

The repository is a set of near-duplicate browser prototypes built around one
pipeline: generate a synthetic (region, year, cost, co2, volume) table, apply a
slider-driven scenario transformation producing delivered cost, carbon-adjusted
cost and bubble size, and partition the derived table by year into animation
frames.  This file gives a shallow embedding of that pipeline and proves the
specification's claims about it.

Embedding conventions:
* JavaScript numbers are modelled as exact rationals (`ℚ`); the one operation
  with no exact rational counterpart, `Math.sqrt`, is modelled by `Real.sqrt`,
  so bubble sizes live in `ℝ`.
* `Math.random()` draws are passed in explicitly as parameters assumed to lie
  in `[0, 1)`, exactly the documented range of `Math.random`.
* The global `state` object is passed explicitly to each function that reads it.
* Four source variants are embedded and the names keep them apart:
  - `computeScenarioRow` / `computeScenario` / `genData` / `buildFrames` /
    `updateChartSummary` follow `script.js`;
  - `computeScenarioUpdRow` and `bubbleSizeUpd` follow the "UPDATED" variant
    (`src/unnamed/part_000`);
  - `computeScenarioRowA` / `bubbleSizeGap` follow the README's full-Gapminder
    variant (`computeScenario` with explicit `tariffAdj`-style adjustments);
  - `computeScenarioDataRow` / `computeScenarioData` / `updateSummaryPanel`
    follow the README's year-filtered variant with the multiplicative tariff.
-/

namespace SteelHack

/-- The six region identifiers shared by every variant. -/
inductive Region
  | US
  | EU
  | Australia
  | Brazil
  | China
  | SouthAfrica
deriving DecidableEq

/-- The region strings used by the JavaScript code. -/
def regionString : Region → String
  | Region.US => "US"
  | Region.EU => "EU"
  | Region.Australia => "Australia"
  | Region.Brazil => "Brazil"
  | Region.China => "China"
  | Region.SouthAfrica => "South Africa"

/-- `const regions = ["US", "EU", "Australia", "Brazil", "China", "South Africa"]`. -/
def regions : List Region :=
  [Region.US, Region.EU, Region.Australia, Region.Brazil, Region.China, Region.SouthAfrica]

/-- README variant: `const domesticRegions = ["US"]`. -/
def domesticRegions : List Region := [Region.US]

/-- README variant: `const overseasRegions = ["EU", "Australia", "Brazil", "China", "South Africa"]`. -/
def overseasRegions : List Region :=
  [Region.EU, Region.Australia, Region.Brazil, Region.China, Region.SouthAfrica]

/-- The mutable slider state of `script.js`: `{tariff, shipping, incentive, carbon}`. -/
structure ScenarioState where
  tariff : ℚ
  shipping : ℚ
  incentive : ℚ
  carbon : ℚ
deriving DecidableEq

/-- One generated observation of `script.js` / `part_000`:
`{region, year, cost, co2, volume}`. -/
structure Obs where
  region : Region
  year : ℕ
  cost : ℚ
  co2 : ℚ
  volume : ℚ
deriving DecidableEq

/-- `script.js` base costs per region. -/
def baseCost : Region → ℚ
  | Region.US => 950
  | Region.EU => 1000
  | Region.Australia => 880
  | Region.Brazil => 760
  | Region.China => 650
  | Region.SouthAfrica => 820

/-- `script.js` base CO₂ intensities per region. -/
def baseCo2 : Region → ℚ
  | Region.US => 380
  | Region.EU => 1850
  | Region.Australia => 420
  | Region.Brazil => 440
  | Region.China => 2100
  | Region.SouthAfrica => 1750

/-- `for (let y = 2025; y <= 2050; y++) years.push(y)`. -/
def years : List ℕ := (List.range 26).map (fun y => 2025 + y)

/-- `const startYear = years[0]` as used by `updateChart` in `script.js`. -/
def startYear : ℕ := years.headD 0

/-- The three `Math.random()` draws consumed by one generated row of
`script.js`'s `genData` (cost noise, co2 noise, volume noise). -/
structure NoiseDraw where
  rc : ℚ
  re : ℚ
  rv : ℚ
deriving DecidableEq

/-- `script.js` `genData`: one row per (year, region) with linear trends plus
noise.  The `Math.random()` draws are supplied by `noise t region`. -/
def genData (noise : ℕ → Region → NoiseDraw) : List Obs :=
  years.enum.flatMap (fun p =>
    regions.map (fun region =>
      let n := noise p.1 region
      { region := region
        year := p.2
        cost := baseCost region
          + (if region = Region.US then -12 * (p.1 : ℚ) else 9 * (p.1 : ℚ))
          + (n.rc - 1/2) * 35
        co2 := baseCo2 region
          - (if region = Region.US then 14 * (p.1 : ℚ) else 4 * (p.1 : ℚ))
          + (n.re - 1/2) * 55
        volume := 15000 + (p.1 : ℚ) * 3500 + n.rv * 12000 }))

/-- `script.js` line 86: `Math.max(12, Math.sqrt(d.volume) / 9)`. -/
noncomputable def bubbleSize (v : ℚ) : ℝ := max 12 (Real.sqrt (v : ℝ) / 9)

/-- `part_000` line 70: `Math.sqrt(d.volume) / 20` (no floor). -/
noncomputable def bubbleSizeUpd (v : ℚ) : ℝ := Real.sqrt (v : ℝ) / 20

/-- README Gapminder variant line 149: `Math.max(10, Math.sqrt(d.volume) / 25)`. -/
noncomputable def bubbleSizeGap (v : ℚ) : ℝ := max 10 (Real.sqrt (v : ℝ) / 25)

/-- A derived row of `script.js` / `part_000`: the observation's fields spread
via `...d` plus `deliveredCost`, `bubbleSize` and `carbonAdj`. -/
structure Derived where
  region : Region
  year : ℕ
  cost : ℚ
  co2 : ℚ
  volume : ℚ
  deliveredCost : ℚ
  bubbleSize : ℝ
  carbonAdj : ℚ

/-- `script.js` `computeScenario`, per row: `isDomestic = region === "US"`,
`delivered = cost + (isDomestic ? -incentive : (tariff/100)*cost + shipping)`. -/
noncomputable def computeScenarioRow (s : ScenarioState) (d : Obs) : Derived :=
  let delivered :=
    d.cost + (if d.region = Region.US then -s.incentive else s.tariff / 100 * d.cost + s.shipping)
  { region := d.region
    year := d.year
    cost := d.cost
    co2 := d.co2
    volume := d.volume
    deliveredCost := delivered
    bubbleSize := bubbleSize d.volume
    carbonAdj := delivered + d.co2 / 1000 * s.carbon }

/-- `script.js` `computeScenario`: `baseData.map(d => ...)`. -/
noncomputable def computeScenario (s : ScenarioState) (base : List Obs) : List Derived :=
  base.map (computeScenarioRow s)

/-- `part_000` `computeScenario` per row: same delivered-cost and carbon
formulas as `script.js`, but `bubbleSize: Math.sqrt(d.volume) / 20`. -/
noncomputable def computeScenarioUpdRow (s : ScenarioState) (d : Obs) : Derived :=
  let delivered :=
    d.cost + (if d.region = Region.US then -s.incentive else s.tariff / 100 * d.cost + s.shipping)
  { region := d.region
    year := d.year
    cost := d.cost
    co2 := d.co2
    volume := d.volume
    deliveredCost := delivered
    bubbleSize := bubbleSizeUpd d.volume
    carbonAdj := delivered + d.co2 / 1000 * s.carbon }

/-- README Gapminder variant, line 135:
`tariffAdj = isDomestic ? 0 : (state.tariff / 100) * d.baseCost`. -/
def tariffAdj (s : ScenarioState) (r : Region) (cost : ℚ) : ℚ :=
  if r ∈ domesticRegions then 0 else s.tariff / 100 * cost

/-- README Gapminder variant, line 136:
`shippingAdj = isOverseas ? state.shipping : 0`. -/
def shippingAdj (s : ScenarioState) (r : Region) : ℚ :=
  if r ∈ overseasRegions then s.shipping else 0

/-- README Gapminder variant, line 137:
`incentiveAdj = isDomestic ? state.incentive : 0`. -/
def incentiveAdj (s : ScenarioState) (r : Region) : ℚ :=
  if r ∈ domesticRegions then s.incentive else 0

/-- An observation of the README variants:
`{region, method, year, baseCost, baseCo2, volume}`. -/
structure ObsB where
  region : Region
  method : String
  year : ℕ
  baseCost : ℚ
  baseCo2 : ℚ
  volume : ℚ
deriving DecidableEq

/-- A derived row of the README Gapminder variant. -/
structure DerivedA where
  region : Region
  method : String
  year : ℕ
  baseCost : ℚ
  baseCo2 : ℚ
  volume : ℚ
  deliveredCost : ℚ
  carbonAdjustedCost : ℚ
  bubbleSize : ℝ

/-- README Gapminder variant `computeScenario`, per row:
`deliveredCost = baseCost + tariffAdj + shippingAdj - incentiveAdj`,
`carbonAdjustedCost = deliveredCost + (baseCo2 / 1000) * carbonPrice`. -/
noncomputable def computeScenarioRowA (s : ScenarioState) (d : ObsB) : DerivedA :=
  let deliveredCost :=
    d.baseCost + tariffAdj s d.region d.baseCost + shippingAdj s d.region - incentiveAdj s d.region
  { region := d.region
    method := d.method
    year := d.year
    baseCost := d.baseCost
    baseCo2 := d.baseCo2
    volume := d.volume
    deliveredCost := deliveredCost
    carbonAdjustedCost := deliveredCost + d.baseCo2 / 1000 * s.carbon
    bubbleSize := bubbleSizeGap d.volume }

/-- The state record of the README's year-filtered variant:
`{year, tariffPercent, shippingCost, iraIncentive, carbonPrice}`. -/
structure StateB where
  year : ℕ
  tariffPercent : ℚ
  shippingCost : ℚ
  iraIncentive : ℚ
  carbonPrice : ℚ
deriving DecidableEq

/-- A derived row of the README's year-filtered variant (no bubble size is
computed there; sizes are derived at chart level). -/
structure DerivedB where
  region : Region
  method : String
  year : ℕ
  baseCost : ℚ
  baseCo2 : ℚ
  volume : ℚ
  deliveredCost : ℚ
  carbonAdjustedCost : ℚ
deriving DecidableEq

/-- README `computeScenarioData`, per row: the multiplicative tariff variant,
`deliveredCost = baseCost * (1 + tariffMultiplier) + shipping - incentive`. -/
def computeScenarioDataRow (s : StateB) (d : ObsB) : DerivedB :=
  let tariffMultiplier := if d.region ∈ domesticRegions then 0 else s.tariffPercent / 100
  let shipping := if d.region ∈ overseasRegions then s.shippingCost else 0
  let incentive := if d.region ∈ domesticRegions then s.iraIncentive else 0
  let deliveredCost := d.baseCost * (1 + tariffMultiplier) + shipping - incentive
  { region := d.region
    method := d.method
    year := d.year
    baseCost := d.baseCost
    baseCo2 := d.baseCo2
    volume := d.volume
    deliveredCost := deliveredCost
    carbonAdjustedCost := deliveredCost + d.baseCo2 / 1000 * s.carbonPrice }

/-- README `computeScenarioData`: filter `baseData` to the selected year, then
map the row transformation. -/
def computeScenarioData (s : StateB) (base : List ObsB) : List DerivedB :=
  (base.filter (fun d => decide (d.year = s.year))).map (computeScenarioDataRow s)

/-- Models `Number.prototype.toFixed(0)`: round to the nearest integer and
print it (ties at .5 round up, as JS does for positive values). -/
def toFixed0 (q : ℚ) : String := toString (round q)

/-- README `formatDiff(value, unit = "USD")`. -/
def formatDiff (value : ℚ) (unit : String) : String :=
  let sign := if 0 < value then "+" else ""
  if unit = "USD" then sign ++ "$" ++ toFixed0 value
  else sign ++ toFixed0 value ++ " " ++ unit

/-- The nine summary-table cells written by the summary updates. -/
structure SummaryCells where
  usCost : String
  cnCost : String
  costDiff : String
  usCo2 : String
  cnCo2 : String
  co2Diff : String
  usAdj : String
  cnAdj : String
  adjDiff : String
deriving DecidableEq

/-- The all-"N/A" cell assignment of `updateSummaryPanel`'s missing-row guard. -/
def allNA : SummaryCells :=
  { usCost := "N/A", cnCost := "N/A", costDiff := "N/A"
    usCo2 := "N/A", cnCo2 := "N/A", co2Diff := "N/A"
    usAdj := "N/A", cnAdj := "N/A", adjDiff := "N/A" }

/-- README `updateSummaryPanel`: look up the US and China rows with `find`;
`if (!us || !cn)` write "N/A" into every cell and return, otherwise format the
values and their differences. -/
def updateSummaryPanel (s : StateB) (base : List ObsB) : SummaryCells :=
  match (computeScenarioData s base).find? (fun d => decide (d.region = Region.US)),
      (computeScenarioData s base).find? (fun d => decide (d.region = Region.China)) with
  | some u, some c =>
    { usCost := "$" ++ toFixed0 u.deliveredCost
      cnCost := "$" ++ toFixed0 c.deliveredCost
      costDiff := formatDiff (u.deliveredCost - c.deliveredCost) "USD"
      usCo2 := toFixed0 u.baseCo2 ++ " kg"
      cnCo2 := toFixed0 c.baseCo2 ++ " kg"
      co2Diff := formatDiff (u.baseCo2 - c.baseCo2) "kg"
      usAdj := "$" ++ toFixed0 u.carbonAdjustedCost
      cnAdj := "$" ++ toFixed0 c.carbonAdjustedCost
      adjDiff := formatDiff (u.carbonAdjustedCost - c.carbonAdjustedCost) "USD" }
  | _, _ => allNA

/-- The summary-table part of `script.js` `updateChart`: it looks up the US and
China rows with `find` and dereferences both results with **no** missing-row
guard (`us.deliveredCost - cn.deliveredCost` throws a TypeError when a lookup
returned `undefined`).  The thrown exception is modelled as `none`. -/
noncomputable def updateChartSummary (s : ScenarioState) (base : List Obs) : Option SummaryCells :=
  match (computeScenario s base).find?
      (fun d => decide (d.region = Region.US ∧ d.year = startYear)),
      (computeScenario s base).find?
      (fun d => decide (d.region = Region.China ∧ d.year = startYear)) with
  | some us, some cn =>
    some
      { usCost := "$" ++ toFixed0 us.deliveredCost
        cnCost := "$" ++ toFixed0 cn.deliveredCost
        costDiff := (if 0 ≤ us.deliveredCost - cn.deliveredCost then "+" else "")
          ++ "$" ++ toFixed0 (us.deliveredCost - cn.deliveredCost)
        usCo2 := toFixed0 us.co2 ++ " kg"
        cnCo2 := toFixed0 cn.co2 ++ " kg"
        co2Diff := (if 0 ≤ us.co2 - cn.co2 then "+" else "")
          ++ toFixed0 (us.co2 - cn.co2) ++ " kg"
        usAdj := "$" ++ toFixed0 us.carbonAdj
        cnAdj := "$" ++ toFixed0 cn.carbonAdj
        adjDiff := (if 0 ≤ us.carbonAdj - cn.carbonAdj then "+" else "")
          ++ "$" ++ toFixed0 (us.carbonAdj - cn.carbonAdj) }
  | _, _ => none

/-- `script.js` `regionColor`. -/
def regionColor : Region → String
  | Region.US => "#1f77b4"
  | Region.EU => "#ff7f0e"
  | Region.Australia => "#2ca02c"
  | Region.Brazil => "#17becf"
  | Region.China => "#d62728"
  | Region.SouthAfrica => "#9467bd"

/-- One Plotly trace produced by `script.js` `buildFrames`: per-region filtered
x/y/text/size lists, a fixed mode, the region's color and opacity. -/
structure Trace where
  name : Region
  x : List ℚ
  yvals : List ℚ
  text : List String
  mode : String
  sizes : List ℝ
  color : String
  opacity : ℚ

/-- One animation frame: `{ name: String(yr), data: traces }`. -/
structure Frame where
  name : String
  data : List Trace

/-- `script.js` `buildFrames`: one frame per year of the timeline, each with
one trace per region holding that region's rows for that year. -/
def buildFrames (all : List Derived) : List Frame :=
  years.map (fun yr =>
    { name := toString yr
      data := regions.map (fun region =>
        let d := all.filter (fun x => decide (x.region = region ∧ x.year = yr))
        { name := region
          x := d.map (fun i => i.deliveredCost)
          yvals := d.map (fun i => i.co2)
          text := d.map (fun _ => regionString region ++ " (" ++ toString yr ++ ")")
          mode := "markers"
          sizes := d.map (fun i => i.bubbleSize)
          color := regionColor region
          opacity := 85 / 100 }) })

/-- The baseline preset of `script.js`: tariff 10, shipping 60, incentive 40,
carbon 75. -/
def sBaseline : ScenarioState := { tariff := 10, shipping := 60, incentive := 40, carbon := 75 }

/-- The baseline preset of the README's year-filtered variant. -/
def sbBaseline : StateB :=
  { year := 2024, tariffPercent := 10, shippingCost := 60, iraIncentive := 40, carbonPrice := 75 }

/-- The spec's worked US example row: cost 950, co2 380. -/
def usObs : Obs := { region := Region.US, year := 2025, cost := 950, co2 := 380, volume := 21000 }

/-- The spec's worked China example row: cost 680, co2 2100. -/
def chinaObs : Obs :=
  { region := Region.China, year := 2025, cost := 680, co2 := 2100, volume := 21000 }

/-- A China observation for the README variants, matching `chinaObs`. -/
def chinaObsB : ObsB :=
  { region := Region.China, method := "BF-BOF", year := 2024, baseCost := 680
    baseCo2 := 2100, volume := 50000 }

/-- A noise assignment in which every `Math.random()` draw returns 1/2, so all
centred noise terms vanish. -/
def halfNoise : ℕ → Region → NoiseDraw := fun _ _ => { rc := 1/2, re := 1/2, rv := 1/2 }

/-- C1: for every observation row and scenario state, `script.js`'s delivered
cost equals `cost + tariffAdj + shippingAdj - incentiveAdj` with the
adjustments of the spec (0 tariff/shipping and full incentive for domestic
regions; proportional tariff, full shipping and no incentive for overseas
regions); hence domestic rows never incur a tariff or shipping adjustment and
overseas rows never incur the incentive adjustment. -/
theorem deliveredCost_eq_adjustments (s : ScenarioState) (d : Obs) :
    (computeScenarioRow s d).deliveredCost
      = d.cost + tariffAdj s d.region d.cost + shippingAdj s d.region
        - incentiveAdj s d.region ∧
    (d.region ∈ domesticRegions →
      tariffAdj s d.region d.cost = 0 ∧ shippingAdj s d.region = 0 ∧
        incentiveAdj s d.region = s.incentive) ∧
    (d.region ∈ overseasRegions →
      tariffAdj s d.region d.cost = s.tariff / 100 * d.cost ∧
        shippingAdj s d.region = s.shipping ∧ incentiveAdj s d.region = 0) := by
  cases hr : d.region <;>
    simp [computeScenarioRow, tariffAdj, shippingAdj, incentiveAdj,
      domesticRegions, overseasRegions, hr] <;>
    ring

/-- Witness for C1: both implications discharged at the baseline state, on the
US example row and on the China example row. -/
theorem deliveredCost_eq_adjustments_witness :
    (tariffAdj sBaseline usObs.region usObs.cost = 0 ∧
      shippingAdj sBaseline usObs.region = 0 ∧
      incentiveAdj sBaseline usObs.region = sBaseline.incentive) ∧
    (tariffAdj sBaseline chinaObs.region chinaObs.cost
        = sBaseline.tariff / 100 * chinaObs.cost ∧
      shippingAdj sBaseline chinaObs.region = sBaseline.shipping ∧
      incentiveAdj sBaseline chinaObs.region = 0) :=
  ⟨(deliveredCost_eq_adjustments sBaseline usObs).2.1 (by decide),
    (deliveredCost_eq_adjustments sBaseline chinaObs).2.2 (by decide)⟩

/-- C2: for every observation row and scenario state the carbon-adjusted cost
equals `deliveredCost + (co2/1000) * carbonPrice`, and on the spec's worked
inputs (baseline sliders: tariff 10%, shipping 60, incentive 40, carbon 75)
the China row yields 808 and 965.5 and the US row yields 910 and 938.5. -/
theorem carbonAdj_formula_and_examples :
    (∀ (s : ScenarioState) (d : Obs),
      (computeScenarioRow s d).carbonAdj
        = (computeScenarioRow s d).deliveredCost + d.co2 / 1000 * s.carbon) ∧
    (computeScenarioRow sBaseline chinaObs).deliveredCost = 808 ∧
    (computeScenarioRow sBaseline chinaObs).carbonAdj = 965.5 ∧
    (computeScenarioRow sBaseline usObs).deliveredCost = 910 ∧
    (computeScenarioRow sBaseline usObs).carbonAdj = 938.5 := by
  refine ⟨fun s d => rfl, ?_, ?_, ?_, ?_⟩ <;>
    simp [computeScenarioRow, sBaseline, chinaObs, usObs] <;> norm_num

/-- C3: the scenario transformation is a pure function of the slider state and
the observation table — two runs on equal states and equal tables return equal
derived tables. -/
theorem computeScenario_deterministic (s₁ s₂ : ScenarioState) (b₁ b₂ : List Obs)
    (hs : s₁ = s₂) (hb : b₁ = b₂) :
    computeScenario s₁ b₁ = computeScenario s₂ b₂ := by
  subst hs
  subst hb
  rfl

/-- Witness for C3: two recomputations at the baseline state on the example
table coincide. -/
theorem computeScenario_deterministic_witness :
    computeScenario sBaseline [usObs, chinaObs] = computeScenario sBaseline [usObs, chinaObs] :=
  computeScenario_deterministic sBaseline sBaseline [usObs, chinaObs] [usObs, chinaObs] rfl rfl

/-- C4: the additive tariff formula of the `part_000` variant and the
multiplicative tariff formula of the README's `computeScenarioData` variant
produce equal delivered costs for every observation and every pair of states
that agree on tariff, shipping and incentive (exact arithmetic). -/
theorem additive_multiplicative_equiv (s : ScenarioState) (sb : StateB)
    (d : Obs) (db : ObsB)
    (ht : sb.tariffPercent = s.tariff) (hsh : sb.shippingCost = s.shipping)
    (hi : sb.iraIncentive = s.incentive) (hr : db.region = d.region)
    (hc : db.baseCost = d.cost) :
    (computeScenarioUpdRow s d).deliveredCost
      = (computeScenarioDataRow sb db).deliveredCost := by
  cases hreg : d.region <;>
    simp [computeScenarioUpdRow, computeScenarioDataRow, domesticRegions,
      overseasRegions, ht, hsh, hi, hr, hc, hreg] <;>
    ring

/-- Witness for C4: the two variants agree on the China example row at the
baseline slider values. -/
theorem additive_multiplicative_equiv_witness :
    (computeScenarioUpdRow sBaseline chinaObs).deliveredCost
      = (computeScenarioDataRow sbBaseline chinaObsB).deliveredCost :=
  additive_multiplicative_equiv sBaseline sbBaseline chinaObs chinaObsB rfl rfl rfl rfl rfl

/-- C5: in all three variants the bubble size of a row with non-negative
volume is non-negative, and bubble size is monotonically non-decreasing in
volume. -/
theorem bubbleSize_nonneg_mono (v w : ℚ) (h0 : 0 ≤ v) (hvw : v ≤ w) :
    0 ≤ bubbleSize v ∧ bubbleSize v ≤ bubbleSize w ∧
    0 ≤ bubbleSizeUpd v ∧ bubbleSizeUpd v ≤ bubbleSizeUpd w ∧
    0 ≤ bubbleSizeGap v ∧ bubbleSizeGap v ≤ bubbleSizeGap w := by
  have hs : Real.sqrt (v : ℝ) ≤ Real.sqrt (w : ℝ) :=
    Real.sqrt_le_sqrt (by exact_mod_cast hvw)
  have hnn : (0 : ℝ) ≤ Real.sqrt (v : ℝ) := Real.sqrt_nonneg _
  refine ⟨?_, ?_, ?_, ?_, ?_, ?_⟩
  · exact le_trans (by norm_num) (le_max_left (12 : ℝ) _)
  · exact max_le_max le_rfl (by linarith)
  · unfold bubbleSizeUpd
    positivity
  · unfold bubbleSizeUpd
    linarith
  · exact le_trans (by norm_num) (le_max_left (10 : ℝ) _)
  · exact max_le_max le_rfl (by linarith)

/-- Witness for C5: the bubble-size bounds instantiated at volumes 0 and 1. -/
theorem bubbleSize_nonneg_mono_witness :
    0 ≤ bubbleSize 0 ∧ bubbleSize 0 ≤ bubbleSize 1 ∧
    0 ≤ bubbleSizeUpd 0 ∧ bubbleSizeUpd 0 ≤ bubbleSizeUpd 1 ∧
    0 ≤ bubbleSizeGap 0 ∧ bubbleSizeGap 0 ≤ bubbleSizeGap 1 :=
  bubbleSize_nonneg_mono 0 1 le_rfl (by norm_num)

/-- Counterexample for C6: the `part_000` variant applies no floor — its
bubble size at volume 0 is 0, so no fixed positive minimum radius bounds it
from below over the non-negative volumes. -/
theorem bubbleSizeUpd_no_floor :
    bubbleSizeUpd 0 = 0 ∧
    ¬∃ m : ℝ, 0 < m ∧ ∀ v : ℚ, 0 ≤ v → m ≤ bubbleSizeUpd v := by
  have h0 : bubbleSizeUpd 0 = 0 := by
    simp [bubbleSizeUpd]
  refine ⟨h0, ?_⟩
  rintro ⟨m, hm, hall⟩
  have := hall 0 le_rfl
  rw [h0] at this
  linarith

/-- C6 as amended: the `script.js` variant floors bubble size at the constant
12 and the README Gapminder variant floors it at 10, so those two variants
never fall below their minimum visible radius; the `part_000` variant applies
no floor (see the counterexample). -/
theorem bubbleSize_floored (v : ℚ) : 12 ≤ bubbleSize v ∧ 10 ≤ bubbleSizeGap v :=
  ⟨le_max_left _ _, le_max_left _ _⟩

/-- Counterexample for C8: the summary-table code of `script.js`'s
`updateChart` dereferences the `find` results without a missing-row guard; on
a derived table whose selected year has no US row it fails (modelled `none`)
instead of displaying "N/A". -/
theorem updateChartSummary_missing_fails :
    updateChartSummary sBaseline [chinaObs] = none ∧
    updateChartSummary sBaseline [chinaObs] ≠ some allNA := by
  constructor
  · rfl
  · intro h
    simp [show updateChartSummary sBaseline [chinaObs] = none from rfl] at h

/-- C8 as amended: the README's `updateSummaryPanel` does satisfy the claim —
whenever either comparison lookup finds no matching row it writes "N/A" into
every summary cell and returns normally, never dereferencing the missing
result. -/
theorem updateSummaryPanel_missing_NA (s : StateB) (base : List ObsB)
    (h : (computeScenarioData s base).find? (fun d => decide (d.region = Region.US)) = none
      ∨ (computeScenarioData s base).find? (fun d => decide (d.region = Region.China)) = none) :
    updateSummaryPanel s base = allNA := by
  rcases h with h | h
  · unfold updateSummaryPanel
    rw [h]
  · unfold updateSummaryPanel
    rw [h]
    cases (computeScenarioData s base).find? (fun d => decide (d.region = Region.US)) <;> rfl

/-- Witness for C8: on the empty table the lookup misses and every cell reads
"N/A". -/
theorem updateSummaryPanel_missing_NA_witness :
    updateSummaryPanel sbBaseline [] = allNA :=
  updateSummaryPanel_missing_NA sbBaseline [] (Or.inl rfl)

/-- C9: whatever values the `Math.random()` draws take within their documented
range `[0, 1)`, every row generated by `script.js`'s `genData` has strictly
positive volume. -/
theorem genData_volume_pos (noise : ℕ → Region → NoiseDraw) (d : Obs)
    (hnoise : ∀ t r, 0 ≤ (noise t r).rc ∧ (noise t r).rc < 1 ∧
      0 ≤ (noise t r).re ∧ (noise t r).re < 1 ∧
      0 ≤ (noise t r).rv ∧ (noise t r).rv < 1)
    (hd : d ∈ genData noise) : 0 < d.volume := by
  simp only [genData, List.mem_flatMap, List.mem_map] at hd
  obtain ⟨p, hp, region, hregion, rfl⟩ := hd
  have ht : (0 : ℚ) ≤ (p.1 : ℚ) := by positivity
  have hrv : 0 ≤ (noise p.1 region).rv := (hnoise p.1 region).2.2.2.2.1
  have h1 : (0 : ℚ) ≤ (p.1 : ℚ) * 3500 := by positivity
  have h2 : (0 : ℚ) ≤ (noise p.1 region).rv * 12000 := by positivity
  show (0 : ℚ) < 15000 + (p.1 : ℚ) * 3500 + (noise p.1 region).rv * 12000
  linarith

/-- Witness for C9: with every draw fixed at 1/2 the first generated row is
the US 2025 row with volume 21000, which is positive. -/
theorem genData_volume_pos_witness : 0 < usObs.volume :=
  genData_volume_pos halfNoise usObs
    (fun t r => by refine ⟨by norm_num [halfNoise], by norm_num [halfNoise],
      by norm_num [halfNoise], by norm_num [halfNoise], by norm_num [halfNoise],
      by norm_num [halfNoise]⟩)
    (by
      simp only [genData, List.mem_flatMap, List.mem_map]
      refine ⟨(0, 2025), by decide, Region.US, by decide, ?_⟩
      simp [usObs, halfNoise, baseCost, baseCo2, Obs.mk.injEq]
      norm_num)

/-- C10: the `script.js` scenario transformation returns exactly one derived
row per input observation, in input order, and each derived row preserves its
source row's region, year, cost, co2 and volume unchanged (the transformation
itself is pure, so the input table is untouched). -/
theorem computeScenario_preserves_rows (s : ScenarioState) (t : List Obs)
    (i : ℕ) (h : i < t.length) (h2 : i < (computeScenario s t).length) :
    (computeScenario s t).length = t.length ∧
    ((computeScenario s t)[i]).region = (t[i]).region ∧
    ((computeScenario s t)[i]).year = (t[i]).year ∧
    ((computeScenario s t)[i]).cost = (t[i]).cost ∧
    ((computeScenario s t)[i]).co2 = (t[i]).co2 ∧
    ((computeScenario s t)[i]).volume = (t[i]).volume := by
  refine ⟨List.length_map _ _, ?_, ?_, ?_, ?_, ?_⟩ <;>
    simp [computeScenario, List.getElem_map, computeScenarioRow]

/-- Witness for C10: on the singleton China table the derived table has the
same length as the input. -/
theorem computeScenario_preserves_rows_witness :
    (computeScenario sBaseline [chinaObs]).length = ([chinaObs] : List Obs).length :=
  (computeScenario_preserves_rows sBaseline [chinaObs] 0 (by norm_num)
    (by simp [computeScenario])).1

/-- Every region constructor occurs in the `regions` list. -/
theorem mem_regions (r : Region) : r ∈ regions := by
  cases r <;> simp [regions]

/-- `flatMap` respects functions that agree on the list's members. -/
theorem flatMap_congr_mem {α β : Type} {rs : List α} {f g : α → List β}
    (h : ∀ r ∈ rs, f r = g r) : rs.flatMap f = rs.flatMap g := by
  induction rs with
  | nil => rfl
  | cons r rs ih =>
    rw [List.flatMap_cons, List.flatMap_cons, h r (List.mem_cons_self r rs),
      ih (fun a ha => h a (List.mem_cons_of_mem r ha))]

/-- One cons step of the region-partition permutation: pushing a new element
through the grouped filters inserts it exactly once, in the group of its own
key. -/
theorem flatMap_filter_cons_perm {α : Type} (key : α → Region) (a : α) (l : List α)
    (rs : List Region) (hnd : rs.Nodup) (ha : key a ∈ rs) :
    List.Perm (rs.flatMap (fun r => (a :: l).filter (fun d => decide (key d = r))))
      (a :: rs.flatMap (fun r => l.filter (fun d => decide (key d = r)))) := by
  induction rs with
  | nil => simp at ha
  | cons r rs ih =>
    rw [List.nodup_cons] at hnd
    by_cases hk : key a = r
    · have h1 : (a :: l).filter (fun d => decide (key d = r))
          = a :: l.filter (fun d => decide (key d = r)) := by
        simp [List.filter_cons, hk]
      have h2 : rs.flatMap (fun r2 => (a :: l).filter (fun d => decide (key d = r2)))
          = rs.flatMap (fun r2 => l.filter (fun d => decide (key d = r2))) := by
        refine flatMap_congr_mem (fun r2 hr2 => ?_)
        have hne : ¬key a = r2 := by
          intro hcontr
          refine hnd.1 ?_
          rw [hk.symm.trans hcontr]
          exact hr2
        simp [List.filter_cons, hne]
      rw [List.flatMap_cons, List.flatMap_cons, h1, h2]
      exact List.Perm.refl _
    · have ha2 : key a ∈ rs := by
        rcases List.mem_cons.mp ha with hmem | hmem
        · exact absurd hmem hk
        · exact hmem
      have h1 : (a :: l).filter (fun d => decide (key d = r))
          = l.filter (fun d => decide (key d = r)) := by
        simp [List.filter_cons, hk]
      rw [List.flatMap_cons, List.flatMap_cons, h1]
      exact List.Perm.trans ((ih hnd.2 ha2).append_left _) List.perm_middle

/-- Grouping a list by region key and concatenating the groups in the fixed
`regions` order is a permutation of the original list. -/
theorem flatMap_filter_perm {α : Type} (key : α → Region) (l : List α) :
    List.Perm (regions.flatMap (fun r => l.filter (fun d => decide (key d = r)))) l := by
  induction l with
  | nil => simp
  | cons a l ih =>
    exact List.Perm.trans
      (flatMap_filter_cons_perm key a l regions (by decide) (mem_regions _))
      (ih.cons a)

/-- Collecting an `f`-value list per region group (as `buildFrames` does per
trace) and concatenating over `regions` permutes the `f`-values of the rows
of the given year. -/
theorem flatMap_filter_map_perm {β : Type} (all : List Derived) (yr : ℕ) (f : Derived → β) :
    List.Perm
      (regions.flatMap (fun region =>
        (all.filter (fun x => decide (x.region = region ∧ x.year = yr))).map f))
      ((all.filter (fun d => decide (d.year = yr))).map f) := by
  have hsplit : ∀ region : Region,
      all.filter (fun x => decide (x.region = region ∧ x.year = yr))
        = (all.filter (fun d => decide (d.year = yr))).filter
            (fun x => decide (x.region = region)) := by
    intro region
    rw [List.filter_filter]
    congr 1
    funext x
    rw [Bool.decide_and]
  have h1 : regions.flatMap (fun region =>
        (all.filter (fun x => decide (x.region = region ∧ x.year = yr))).map f)
      = (regions.flatMap (fun region =>
          (all.filter (fun d => decide (d.year = yr))).filter
            (fun x => decide (x.region = region)))).map f := by
    rw [List.map_flatMap]
    exact flatMap_congr_mem (fun region _ => by rw [hsplit region])
  rw [h1]
  exact (flatMap_filter_perm (fun d => d.region)
    (all.filter (fun d => decide (d.year = yr)))).map f

/-- C7: `buildFrames` partitions the derived table by year into one frame per
year of the (strictly ascending) timeline, in year order; the frame named for
year `y` carries exactly the x (delivered cost), y (co2) and size (bubble
size) values of the derived rows whose year equals `y` — and no rows of any
other year — and each of its traces carries its region's color and exactly
that region's rows of year `y`. -/
theorem buildFrames_partitions_by_year (all : List Derived) (i : ℕ)
    (h : i < years.length) (h2 : i < (buildFrames all).length) :
    (buildFrames all).length = years.length ∧
    List.Sorted (· < ·) years ∧
    ((buildFrames all)[i]).name = toString years[i] ∧
    List.Perm (((buildFrames all)[i]).data.flatMap Trace.x)
      ((all.filter (fun d => decide (d.year = years[i]))).map Derived.deliveredCost) ∧
    List.Perm (((buildFrames all)[i]).data.flatMap Trace.yvals)
      ((all.filter (fun d => decide (d.year = years[i]))).map Derived.co2) ∧
    List.Perm (((buildFrames all)[i]).data.flatMap Trace.sizes)
      ((all.filter (fun d => decide (d.year = years[i]))).map Derived.bubbleSize) ∧
    ∀ tr ∈ ((buildFrames all)[i]).data,
      tr.color = regionColor tr.name ∧
      tr.x = (all.filter (fun d => decide (d.region = tr.name ∧ d.year = years[i]))).map
        Derived.deliveredCost := by
  have hdata : ((buildFrames all)[i]).data
      = regions.map (fun region =>
          ({ name := region
             x := (all.filter
               (fun x => decide (x.region = region ∧ x.year = years[i]))).map
               (fun j => j.deliveredCost)
             yvals := (all.filter
               (fun x => decide (x.region = region ∧ x.year = years[i]))).map
               (fun j => j.co2)
             text := (all.filter
               (fun x => decide (x.region = region ∧ x.year = years[i]))).map
               (fun _ => regionString region ++ " (" ++ toString years[i] ++ ")")
             mode := "markers"
             sizes := (all.filter
               (fun x => decide (x.region = region ∧ x.year = years[i]))).map
               (fun j => j.bubbleSize)
             color := regionColor region
             opacity := 85 / 100 } : Trace)) := by
    unfold buildFrames
    rw [List.getElem_map]
  refine ⟨by simp [buildFrames], by decide, ?_, ?_, ?_, ?_, ?_⟩
  · unfold buildFrames
    rw [List.getElem_map]
  · rw [hdata, List.flatMap_map]
    exact flatMap_filter_map_perm all years[i] (fun j => j.deliveredCost)
  · rw [hdata, List.flatMap_map]
    exact flatMap_filter_map_perm all years[i] (fun j => j.co2)
  · rw [hdata, List.flatMap_map]
    exact flatMap_filter_map_perm all years[i] (fun j => j.bubbleSize)
  · intro tr htr
    rw [hdata, List.mem_map] at htr
    obtain ⟨region, hregion, rfl⟩ := htr
    exact ⟨rfl, rfl⟩

/-- Witness for C7: on the empty derived table the frame list still has one
frame per timeline year, and the timeline is strictly ascending. -/
theorem buildFrames_partitions_by_year_witness :
    (buildFrames []).length = years.length ∧ List.Sorted (· < ·) years :=
  ⟨(buildFrames_partitions_by_year [] 0 (by decide) (by simp [buildFrames, years])).1,
    (buildFrames_partitions_by_year [] 0 (by decide) (by simp [buildFrames, years])).2.1⟩

end SteelHack
